import Mathlib

/-
Verification development for the quantitative_desk repository
(multi-strategy portfolio execution and risk engine).

The Python sources are shallowly embedded here:
pure numeric code is translated to functions over the rationals
(floating point replaced by exact arithmetic, which is faithful to the
control flow that the stated properties are about), stateful code is
translated to explicit state passing, and pandas/numpy operations are
translated to their documented mathematical definitions.  The two
square-root based quantities (the rolling standard deviation used by the
mean-reversion strategies and the annualized volatility used by the
performance analyzer) are modelled over the reals.
-/

/-- Order / fill side.  In Python this is the string 'buy' or 'sell';
trade routing only ever submits these two values. -/
inductive Side where
  | buy : Side
  | sell : Side
deriving DecidableEq, Repr, Inhabited

/-
TransactionCostCalculator (project_atlas/infrastructure.py, lines 11-31).
Class-level rate constants, written as exact rationals.
-/

def BROKERAGE_PCT : ℚ := 3 / 10000

def STT_PCT : ℚ := 1 / 1000

def EXCHANGE_TXN_PCT : ℚ := 345 / 10000000

def GST_PCT : ℚ := 18 / 100

def SEBI_FEES_PCT : ℚ := 1 / 1000000

def STAMP_DUTY_PCT : ℚ := 15 / 100000

/-- TransactionCostCalculator.calculate: total fees for a trade of the
given notional value on the given side; the stamp duty component is
added only on the buy side. -/
def calculate (trade_value : ℚ) (side : Side) : ℚ :=
  let brokerage := trade_value * BROKERAGE_PCT
  let stt := trade_value * STT_PCT
  let exchange_txn_charge := trade_value * EXCHANGE_TXN_PCT
  let gst := (brokerage + exchange_txn_charge) * GST_PCT
  let sebi_fees := trade_value * SEBI_FEES_PCT
  let stamp_duty := if side = Side.buy then trade_value * STAMP_DUTY_PCT else 0
  brokerage + stt + exchange_txn_charge + gst + sebi_fees + stamp_duty

/-- MarketSimulator.execute_orders, line 175: the slippage-adjusted
execution price (price inflated for buys, deflated for sells).
slippage is SLIPPAGE_BPS / 10000 (the simulator divides once at
construction). -/
def execution_price (slippage price : ℚ) (side : Side) : ℚ :=
  price * (if side = Side.buy then 1 + slippage else 1 - slippage)

/-
AtlasStrategy state (project_atlas/strategy_library.py, lines 13-34):
cash, integer share count, risk fraction, and the armed exit prices.
-/

structure AtlasStrategyState where
  cash : ℚ
  shares : ℤ
  risk_per_trade : ℚ
  stop_loss_price : ℚ
  take_profit_price : ℚ
deriving DecidableEq, Repr, Inhabited

/-- AtlasStrategy.set_capital: cash is set to the allocated capital and
the share count is reset to zero (other fields are untouched). -/
def set_capital (s : AtlasStrategyState) (capital : ℚ) : AtlasStrategyState :=
  { s with cash := capital, shares := 0 }

/-- AtlasStrategy._clear_exit_prices. -/
def clear_exit_prices (s : AtlasStrategyState) : AtlasStrategyState :=
  { s with stop_loss_price := 0, take_profit_price := 0 }

/-- PortfolioManager._rebalance_capital (infrastructure.py lines
102-109): if there are no strategies nothing happens, otherwise every
strategy receives initial_capital / strategyCount via set_capital. -/
def rebalance_capital (initial_capital : ℚ) (strats : List AtlasStrategyState) :
    List AtlasStrategyState :=
  if strats.isEmpty then strats
  else strats.map (fun s => set_capital s (initial_capital / (strats.length : ℚ)))

/-
The PortfolioManager's strategies dictionary, modelled at its keys as a
total map from a strategy identifier to the strategy state.
-/

def Portfolio : Type := Nat → AtlasStrategyState

def updatePortfolio (p : Portfolio) (i : Nat) (s : AtlasStrategyState) : Portfolio :=
  fun j => if j = i then s else p j

/-- An order in the simulator's order queue: MarketSimulator.submit_order
appends {'id', 'side', 'qty'} and only does so for qty > 0. -/
structure Order where
  id : Nat
  side : Side
  qty : ℤ
deriving DecidableEq, Repr

/-- A trade-log entry appended by MarketSimulator.execute_orders.
The qty field is numeric (TradeAnalyzer later does rational arithmetic
on it). -/
structure Fill where
  id : Nat
  side : Side
  qty : ℚ
  price : ℚ
  cost : ℚ
deriving DecidableEq, Repr, Inhabited

/-- MarketSimulator.submit_order (infrastructure.py lines 157-162):
enqueue only when the quantity is positive. -/
def submit_order_sim (queue : List Order) (id : Nat) (side : Side) (qty : ℤ) : List Order :=
  if qty > 0 then queue ++ [⟨id, side, qty⟩] else queue

/-- One iteration of the loop body of MarketSimulator.execute_orders
(infrastructure.py lines 173-199).  The Python code is an if on
side == 'buy' followed by an elif on side == 'sell'; Side has exactly
those two values, so the elif is the else branch here.  A failing
funds/shares check only logs a warning: the portfolio and the trade log
are returned unchanged. -/
def executeOrder (slippage price : ℚ) (st : Portfolio × List Fill) (order : Order) :
    Portfolio × List Fill :=
  let strategy := st.1 order.id
  let exec_price := execution_price slippage price order.side
  let trade_value := (order.qty : ℚ) * exec_price
  let transaction_cost := calculate trade_value order.side
  if order.side = Side.buy then
    let required_funds := trade_value + transaction_cost
    if strategy.cash ≥ required_funds then
      (updatePortfolio st.1 order.id
        { strategy with shares := strategy.shares + order.qty,
                        cash := strategy.cash - required_funds },
       st.2 ++ [⟨order.id, Side.buy, (order.qty : ℚ), exec_price, transaction_cost⟩])
    else st
  else
    if strategy.shares ≥ order.qty then
      (updatePortfolio st.1 order.id
        { strategy with shares := strategy.shares - order.qty,
                        cash := strategy.cash + (trade_value - transaction_cost) },
       st.2 ++ [⟨order.id, Side.sell, (order.qty : ℚ), exec_price, transaction_cost⟩])
    else st

/-- MarketSimulator.execute_orders: the queued orders are drained and
settled in submission order against the single current bar price. -/
def execute_orders (slippage price : ℚ) (p : Portfolio) (log : List Fill)
    (queue : List Order) : Portfolio × List Fill :=
  queue.foldl (executeOrder slippage price) (p, log)

/-- The long-only bookkeeping invariant for one backtest strategy. -/
def stratOK (s : AtlasStrategyState) : Prop := 0 ≤ s.cash ∧ 0 ≤ s.shares

/-- The long-only bookkeeping invariant for the whole backtest book. -/
def portfolioOK (p : Portfolio) : Prop := ∀ i, stratOK (p i)

/-
Live engine (project_citadel).  Two RiskManager implementations exist in
the repository: the one in src/quantitative_desk (which only enforces
MAX_ORDER_VALUE) and the one in "src/Quant T py" (which also implements
the daily-drawdown state machine).  Both are embedded.
-/

structure RiskParams where
  MAX_ORDER_VALUE : ℚ
  DAILY_DRAWDOWN_LIMIT : ℚ
deriving DecidableEq, Repr

/-- RiskManager state: intraday peak equity and the one-way
drawdown-breach flag. -/
structure RMState where
  peak_equity : ℚ
  is_drawdown_breached : Bool
deriving DecidableEq, Repr

/-- RiskManager.assess_new_day: reset peak equity to the given value and
clear the breach flag (both implementations are identical here). -/
def assess_new_day (v : ℚ) : RMState :=
  { peak_equity := v, is_drawdown_breached := false }

/-- RiskManager.is_trade_allowed from src/Quant T py (components_citadel.py
lines 14-20).  Returns the decision, the successor risk state, and the
number of alerts sent during the call.  The breach alert fires only on
the transition (guarded by the flag being clear); the drawdown check
rejects buys only, and the max-order-value check applies to both sides. -/
def is_trade_allowed (params : RiskParams) (rm : RMState) (side : Side) (qty : ℤ)
    (price : ℚ) (current_value : ℚ) : Bool × RMState × Nat :=
  let dd : ℚ :=
    if rm.peak_equity > 0 then (rm.peak_equity - current_value) / rm.peak_equity else 0
  let breach := dd > params.DAILY_DRAWDOWN_LIMIT ∧ rm.is_drawdown_breached = false
  let rm' := if breach then { rm with is_drawdown_breached := true } else rm
  let alerts : Nat := if breach then 1 else 0
  if rm'.is_drawdown_breached = true ∧ side = Side.buy then (false, rm', alerts)
  else if (qty : ℚ) * price > params.MAX_ORDER_VALUE then (false, rm', alerts)
  else (true, rm', alerts)

/-- RiskManager.is_trade_allowed from src/quantitative_desk
(components_citadel.py lines 43-52).  Despite the class carrying a
peak_equity / is_drawdown_breached state, this version only checks the
order value against MAX_ORDER_VALUE (sending a RISK VIOLATION alert on
rejection); it never reads the portfolio equity and never mutates the
risk state.  The unused current_value argument models the
portfolio_context parameter. -/
def is_trade_allowed_desk (params : RiskParams) (rm : RMState) (side : Side) (qty : ℤ)
    (price : ℚ) (current_value : ℚ) : Bool × RMState × Nat :=
  if (qty : ℚ) * price > params.MAX_ORDER_VALUE then (false, rm, 1) else (true, rm, 0)

/-- One call arriving at the Quant T py RiskManager during a session:
either a peak-equity refresh performed by the live loop
(on_market_data line 39: peak := max peak equity) or an
is_trade_allowed call. -/
inductive RMEvent where
  | observe (current_value : ℚ) : RMEvent
  | trade (side : Side) (qty : ℤ) (price : ℚ) (current_value : ℚ) : RMEvent

def rmStep (params : RiskParams) (st : RMState × Nat) (e : RMEvent) : RMState × Nat :=
  match e with
  | RMEvent.observe cv => ({ st.1 with peak_equity := max st.1.peak_equity cv }, st.2)
  | RMEvent.trade side qty price cv =>
      let r := is_trade_allowed params st.1 side qty price cv
      (r.2.1, st.2 + r.2.2)

/-- A full session of the Quant T py RiskManager: assess_new_day
followed by a sequence of observations and trade checks; the second
component counts the breach alerts sent. -/
def runRM (params : RiskParams) (v : ℚ) (es : List RMEvent) : RMState × Nat :=
  es.foldl (rmStep params) (assess_new_day v, 0)

/-
Live strategy state (project_citadel/strategies_citadel.py lines 8-36):
cash, a per-symbol position map (a defaultdict with default 0), and the
per-symbol exit prices.  Symbols are identifiers.
-/

structure LiveStrategyState where
  cash : ℚ
  positions : Nat → ℤ
  risk_per_trade : ℚ
  stop_loss_prices : Nat → ℚ
  take_profit_prices : Nat → ℚ

/-- LiveStrategy.set_capital: unlike the backtest version this sets cash
only (positions are untouched). -/
def live_set_capital (s : LiveStrategyState) (capital : ℚ) : LiveStrategyState :=
  { s with cash := capital }

/-- LiveStrategy._set_exit_prices. -/
def set_exit_prices (s : LiveStrategyState) (symbol : Nat) (entry_price : ℚ)
    (stop_loss_pct take_profit_pct : ℚ) : LiveStrategyState :=
  { s with
    stop_loss_prices := fun k =>
      if k = symbol then entry_price * (1 - stop_loss_pct) else s.stop_loss_prices k,
    take_profit_prices := fun k =>
      if k = symbol then entry_price * (1 + take_profit_pct) else s.take_profit_prices k }

/-- The ChiefInvestmentOfficer book from src/quantitative_desk:
per-strategy live states, the (state-free in this version) risk manager,
and the executed trade counter. -/
structure CIOState where
  strategies : Nat → LiveStrategyState
  risk : RMState
  trade_count : Nat

/-- ChiefInvestmentOfficer.submit_order (src/quantitative_desk
components_citadel.py lines 190-233).  Invalid price (None is delivered
as a non-positive value) and non-positive quantity short-circuit; the
RiskManager gate runs next; the internal funds/shares check guards the
atomic position-and-cash mutation; any failing check leaves the book
unchanged (the trade only gets logged/persisted on success). -/
def submit_order (params : RiskParams) (cio : CIOState) (strategy_id symbol : Nat)
    (side : Side) (quantity : ℤ) (price : ℚ) : CIOState :=
  if price ≤ 0 then cio
  else if quantity ≤ 0 then cio
  else if (is_trade_allowed_desk params cio.risk side quantity price 0).1 then
    let strategy := cio.strategies strategy_id
    let trade_value := (quantity : ℚ) * price
    if (side = Side.buy ∧ strategy.cash ≥ trade_value) ∨
       (side = Side.sell ∧ strategy.positions symbol ≥ quantity) then
      { cio with
        strategies := fun j =>
          if j = strategy_id then
            { strategy with
              positions := fun k =>
                if k = symbol then
                  strategy.positions symbol + (if side = Side.buy then quantity else -quantity)
                else strategy.positions k,
              cash := strategy.cash - (if side = Side.buy then trade_value else -trade_value) }
          else cio.strategies j,
        trade_count := cio.trade_count + 1 }
    else cio
  else cio

/-- One order submission reaching ChiefInvestmentOfficer.submit_order:
the price is the last known price of the symbol at that moment. -/
structure LiveOrder where
  strategy_id : Nat
  symbol : Nat
  side : Side
  qty : ℤ
  price : ℚ

def submit_orders (params : RiskParams) (cio : CIOState) (orders : List LiveOrder) :
    CIOState :=
  orders.foldl (fun c o => submit_order params c o.strategy_id o.symbol o.side o.qty o.price) cio

/-- The long-only bookkeeping invariant for the live book. -/
def cioOK (c : CIOState) : Prop :=
  ∀ i, 0 ≤ (c.strategies i).cash ∧ ∀ k, 0 ≤ (c.strategies i).positions k

/-
TradeAnalyzer.calculate_round_trip_pnl (project_atlas/analysis.py lines
20-46).  The Python open_buys deques hold references to the raw trade
dicts and the matching loop decrements buy_trade['qty'] through those
references, mutating the trade log itself.  The embedding therefore
keeps the raw trade list as explicit mutable state and the per-strategy
FIFO queues as lists of indices into it.
-/

/-- The matching epsilon 1e-6 from analysis.py line 41. -/
def matchEps : ℚ := 1 / 1000000

/-- The while loop of calculate_round_trip_pnl (lines 35-42), acting on
the FIFO queue of open-buy indices for one strategy.  Each iteration
either pops the head buy (when its remaining qty after the match is at
most epsilon) or leaves a positive remainder at the head, in which case
matchQty = sellQty so the next loop test sell_qty > 0 fails and the loop
exits; the non-popping branch returns directly for that reason.
Returns (accumulated round-trip pnl, remaining queue, updated trades). -/
def matchSell (sell_price : ℚ) : ℚ → List Nat → List Fill → ℚ → ℚ × List Nat × List Fill
  | _, [], trades, acc => (acc, [], trades)
  | sell_qty, i :: rest, trades, acc =>
      if sell_qty ≤ 0 then (acc, i :: rest, trades)
      else
        let buy_trade := trades.getD i default
        let match_qty := min sell_qty buy_trade.qty
        let acc' := acc + (sell_price - buy_trade.price) * match_qty
        let trades' := trades.set i { buy_trade with qty := buy_trade.qty - match_qty }
        if buy_trade.qty - match_qty ≤ matchEps then
          matchSell sell_price (sell_qty - match_qty) rest trades' acc'
        else (acc', i :: rest, trades')

/-- Analyzer state: the (mutated) raw trade list, the collected pnl
list, and the per-strategy open-buy index queues. -/
structure RTState where
  trades : List Fill
  pnl : List ℚ
  openBuys : Nat → List Nat

/-- The body of the for loop of calculate_round_trip_pnl for the trade
at index i: buys are enqueued; a sell with no open buys for its strategy
is skipped entirely; otherwise it is FIFO-matched and the round-trip pnl
is appended only when non-zero.  (The Python if/elif on the side string
covers exactly the two Side values.) -/
def rtStep (st : RTState) (i : Nat) : RTState :=
  let trade := st.trades.getD i default
  if trade.side = Side.buy then
    { st with openBuys := fun j =>
        if j = trade.id then st.openBuys trade.id ++ [i] else st.openBuys j }
  else
    if st.openBuys trade.id = [] then st
    else
      let r := matchSell trade.price trade.qty (st.openBuys trade.id) st.trades 0
      { trades := r.2.2,
        pnl := if r.1 ≠ 0 then st.pnl ++ [r.1] else st.pnl,
        openBuys := fun j => if j = trade.id then r.2.1 else st.openBuys j }

/-- TradeAnalyzer.calculate_round_trip_pnl run over the whole raw trade
list, returning the final analyzer state (including the mutated trade
list). -/
def runAnalyzer (raw_trades : List Fill) : RTState :=
  (List.range raw_trades.length).foldl rtStep
    { trades := raw_trades, pnl := [], openBuys := fun _ => [] }

/-- The return value of TradeAnalyzer.calculate_round_trip_pnl. -/
def calculate_round_trip_pnl (raw_trades : List Fill) : List ℚ :=
  (runAnalyzer raw_trades).pnl

/-
Strategy layer (project_atlas/strategy_library.py and
project_citadel/strategies_citadel.py).
-/

/-- The Signal constants of strategy_library.py. -/
def Signal.BUY : ℤ := 1

def Signal.SELL : ℤ := -1

def Signal.HOLD : ℤ := 0

/-- Python int() applied to a rational: truncation toward zero. -/
def pyInt (q : ℚ) : ℤ := if 0 ≤ q then ⌊q⌋ else ⌈q⌉

/-- One OHLC row as consumed by the strategies (only the High, Low and
Close columns are read). -/
structure Bar where
  high : ℚ
  low : ℚ
  close : ℚ
deriving DecidableEq, Repr, Inhabited

/-- pandas Series.tail(w) / the last w elements of a series. -/
def lastN (w : Nat) (l : List ℚ) : List ℚ := l.drop (l.length - w)

/-- Series.mean(). -/
def qmean (l : List ℚ) : ℚ := l.sum / (l.length : ℚ)

/-- rolling(w).mean().iloc[-1]: the mean of the last w observations
(the guarded call sites ensure w observations are available). -/
def rollingMeanLast (w : Nat) (l : List ℚ) : ℚ := qmean (lastN w l)

/-- np.gradient on a one-dimensional series: one-sided differences at
the ends, central differences inside (call sites have length at least
the long/rolling window, so length ≥ 2). -/
def npGradient (l : List ℚ) : List ℚ :=
  (List.range l.length).map (fun i =>
    if i = 0 then l.getD 1 0 - l.getD 0 0
    else if i = l.length - 1 then l.getD (l.length - 1) 0 - l.getD (l.length - 2) 0
    else (l.getD (i + 1) 0 - l.getD (i - 1) 0) / 2)

/-- The approximate RSI of strategy_library.py (lines 63-64 and 92-93):
the rolling window function applied to the last w price gradients,
scaled by 100. -/
def rsiApprox (w : Nat) (closes : List ℚ) : ℚ :=
  let g := lastN w (npGradient closes)
  ((g.filter (fun x => decide (0 < x))).sum /
    (((g.filter (fun x => decide (x < 0))).map (fun x => |x|)).sum + 1 / 1000000000)) * 100

/-- The row-wise true range: max of high-low, |high - prevClose| and
|low - prevClose|; on the first row the shifted close is NaN and the
row-wise max ignores it, leaving high-low. -/
def trueRange (prev_close : Option ℚ) (b : Bar) : ℚ :=
  match prev_close with
  | none => b.high - b.low
  | some pc => max (b.high - b.low) (max |b.high - pc| |b.low - pc|)

def trueRangesAux (prev_close : Option ℚ) : List Bar → List ℚ
  | [] => []
  | b :: rest => trueRange prev_close b :: trueRangesAux (some b.close) rest

def trueRanges (history : List Bar) : List ℚ := trueRangesAux none history

/-- ewm(alpha, adjust=False).mean() recurrence, returning the last
value: a0 = x0, a(i) = (1 - alpha) * a(i-1) + alpha * x(i). -/
def ewmGo (alpha a : ℚ) : List ℚ → ℚ
  | [] => a
  | y :: t => ewmGo alpha ((1 - alpha) * a + alpha * y) t

def ewmLast (alpha : ℚ) : List ℚ → ℚ
  | [] => 0
  | x :: rest => ewmGo alpha x rest

/-- AtlasStrategy._calculate_atr (strategy_library.py lines 36-45):
zero when fewer than period rows are available, otherwise the last
value of the exponentially weighted mean of the true ranges. -/
def calculate_atr (period : Nat) (history : List Bar) : ℚ :=
  if history.length < period then 0
  else ewmLast (1 / (period : ℚ)) (trueRanges history)

/-- StrategyConfig.TrendFollowing parameters. -/
structure TrendConfig where
  SHORT_WINDOW : Nat
  LONG_WINDOW : Nat
  RSI_WINDOW : Nat
  RSI_BULLISH_THRESHOLD : ℚ
  TAKE_PROFIT_PCT : ℚ
  STOP_LOSS_PCT : ℚ
deriving DecidableEq, Repr

/-- StrategyConfig.MeanReversion parameters. -/
structure MeanRevConfig where
  WINDOW : Nat
  STD_DEV : ℚ
  RSI_WINDOW : Nat
  RSI_OVERSOLD_THRESHOLD : ℚ
  TAKE_PROFIT_PCT : ℚ
  STOP_LOSS_PCT : ℚ
deriving DecidableEq, Repr

/-- AtlasTrendFollowing.decide_action (strategy_library.py lines 53-78):
returns the (signal, quantity) pair together with the successor strategy
state (the exit prices armed on an entry).  price is
market_simulator.price and history the simulator's rolling window. -/
def atlasTrendDecide (cfg : TrendConfig) (s : AtlasStrategyState) (history : List Bar)
    (price : ℚ) : (ℤ × ℤ) × AtlasStrategyState :=
  if history.length < cfg.LONG_WINDOW then ((Signal.HOLD, 0), s)
  else
    let closes := history.map Bar.close
    let short_sma := rollingMeanLast cfg.SHORT_WINDOW closes
    let long_sma := rollingMeanLast cfg.LONG_WINDOW closes
    if s.shares = 0 then
      let rsi := rsiApprox cfg.RSI_WINDOW closes
      if short_sma > long_sma ∧ rsi > cfg.RSI_BULLISH_THRESHOLD then
        let atr := calculate_atr 14 history
        if atr > 0 then
          let quantity := pyInt (s.cash * s.risk_per_trade / atr)
          ((Signal.BUY, quantity),
           { s with stop_loss_price := price * (1 - cfg.STOP_LOSS_PCT),
                    take_profit_price := price * (1 + cfg.TAKE_PROFIT_PCT) })
        else ((Signal.HOLD, 0), s)
      else ((Signal.HOLD, 0), s)
    else
      if short_sma < long_sma then ((Signal.SELL, 0), clear_exit_prices s)
      else ((Signal.HOLD, 0), s)

/-- Sample variance with one delta degree of freedom, as used by
pandas Series.std()/rolling(...).std() (call sites have at least the
rolling window of observations, so the n-1 denominator is positive). -/
def sampleVarQ (l : List ℚ) : ℚ :=
  ((l.map (fun x => (x - qmean l) ^ 2)).sum) / ((l.length : ℚ) - 1)

/-- rolling(w).std().iloc[-1] over the last w observations, a real
number because of the square root. -/
noncomputable def stdLast (w : Nat) (l : List ℚ) : ℝ :=
  Real.sqrt ((sampleVarQ (lastN w l) : ℚ) : ℝ)

/-- AtlasMeanReversion.decide_action (strategy_library.py lines 82-107). -/
noncomputable def atlasMeanRevDecide (cfg : MeanRevConfig) (s : AtlasStrategyState)
    (history : List Bar) (price : ℚ) : (ℤ × ℤ) × AtlasStrategyState :=
  if history.length < cfg.WINDOW then ((Signal.HOLD, 0), s)
  else
    let closes := history.map Bar.close
    let sma := rollingMeanLast cfg.WINDOW closes
    let std_dev := stdLast cfg.WINDOW closes
    let lower_band : ℝ := (sma : ℝ) - (cfg.STD_DEV : ℝ) * std_dev
    if s.shares = 0 then
      let rsi := rsiApprox cfg.RSI_WINDOW closes
      if ((price : ℝ) < lower_band) ∧ rsi < cfg.RSI_OVERSOLD_THRESHOLD then
        let atr := calculate_atr 14 history
        if atr > 0 then
          let quantity := pyInt (s.cash * s.risk_per_trade / atr)
          ((Signal.BUY, quantity),
           { s with stop_loss_price := price * (1 - cfg.STOP_LOSS_PCT),
                    take_profit_price := price * (1 + cfg.TAKE_PROFIT_PCT) })
        else ((Signal.HOLD, 0), s)
      else ((Signal.HOLD, 0), s)
    else
      if price > sma then ((Signal.SELL, 0), clear_exit_prices s)
      else ((Signal.HOLD, 0), s)

/-- LiveTrendFollowing.decide_action (strategies_citadel.py lines
44-79).  The pandas_ta rsi call is an external library function and is
abstracted as the taRsi parameter (series, length) -> optional series;
the source checks its result for None and emptiness before use.  The
tick is (price, optional history series). -/
def liveTrendDecide (taRsi : List ℚ → Nat → Option (List ℚ)) (cfg : TrendConfig)
    (s : LiveStrategyState) (symbol : Nat) (history : Option (List ℚ)) (price : ℚ) :
    ℤ × LiveStrategyState :=
  match history with
  | none => (Signal.HOLD, s)
  | some h =>
    if h.isEmpty ∨ h.length < cfg.LONG_WINDOW then (Signal.HOLD, s)
    else
      match taRsi h cfg.RSI_WINDOW with
      | none => (Signal.HOLD, s)
      | some rsi =>
        if rsi.isEmpty then (Signal.HOLD, s)
        else
          let short_ma := qmean (lastN cfg.SHORT_WINDOW h)
          let long_ma := qmean (lastN cfg.LONG_WINDOW h)
          let current_rsi := rsi.getLastD 0
          if short_ma > long_ma ∧ current_rsi > cfg.RSI_BULLISH_THRESHOLD ∧
             s.positions symbol = 0 then
            (Signal.BUY, set_exit_prices s symbol price cfg.STOP_LOSS_PCT cfg.TAKE_PROFIT_PCT)
          else if short_ma < long_ma ∧ s.positions symbol > 0 then (Signal.SELL, s)
          else (Signal.HOLD, s)

/-- LiveMeanReversion.decide_action (strategies_citadel.py lines
82-126); the band computation uses the real-valued standard deviation
of the last WINDOW prices and holds when it is zero. -/
noncomputable def liveMeanRevDecide (taRsi : List ℚ → Nat → Option (List ℚ))
    (cfg : MeanRevConfig) (s : LiveStrategyState) (symbol : Nat)
    (history : Option (List ℚ)) (price : ℚ) : ℤ × LiveStrategyState :=
  match history with
  | none => (Signal.HOLD, s)
  | some h =>
    if h.isEmpty ∨ h.length < cfg.WINDOW then (Signal.HOLD, s)
    else
      match taRsi h cfg.RSI_WINDOW with
      | none => (Signal.HOLD, s)
      | some rsi =>
        if rsi.isEmpty then (Signal.HOLD, s)
        else
          let prices_for_bands := lastN cfg.WINDOW h
          let ma := qmean prices_for_bands
          let std : ℝ := Real.sqrt ((sampleVarQ prices_for_bands : ℚ) : ℝ)
          if std = 0 then (Signal.HOLD, s)
          else
            let lower_band : ℝ := (ma : ℝ) - (cfg.STD_DEV : ℝ) * std
            let upper_band : ℝ := (ma : ℝ) + (cfg.STD_DEV : ℝ) * std
            let current_rsi := rsi.getLastD 0
            if ((price : ℝ) < lower_band) ∧ current_rsi < cfg.RSI_OVERSOLD_THRESHOLD ∧
               s.positions symbol = 0 then
              (Signal.BUY, set_exit_prices s symbol price cfg.STOP_LOSS_PCT cfg.TAKE_PROFIT_PCT)
            else if ((price : ℝ) > upper_band) ∧ s.positions symbol > 0 then (Signal.SELL, s)
            else (Signal.HOLD, s)

/-
PerformanceAnalyzer.calculate_metrics (project_atlas/analysis.py lines
59-66): the Sharpe ratio component, as a function of the return series
(equity_curve.pct_change().dropna()) and the risk-free rate.
-/

noncomputable def listMeanR (l : List ℝ) : ℝ := l.sum / (l.length : ℝ)

noncomputable def sampleVarR (l : List ℝ) : ℝ :=
  ((l.map (fun x => (x - listMeanR l) ^ 2)).sum) / ((l.length : ℝ) - 1)

noncomputable def annualized_return (returns : List ℝ) : ℝ := listMeanR returns * 252

/-- returns.std() * np.sqrt(252). -/
noncomputable def annualized_volatility (returns : List ℝ) : ℝ :=
  Real.sqrt (sampleVarR returns) * Real.sqrt 252

/-- The sharpe entry of the dict returned by calculate_metrics: zero for
an empty or shorter-than-2 return series (line 60), the excess-return
ratio when the annualized volatility is positive and zero otherwise
(line 66). -/
noncomputable def calculate_metrics_sharpe (returns : List ℝ) (risk_free_rate : ℝ) : ℝ :=
  if returns.isEmpty ∨ returns.length < 2 then 0
  else if annualized_volatility returns > 0 then
    (annualized_return returns - risk_free_rate) / annualized_volatility returns
  else 0


/-
Helper lemmas.
-/

lemma side_eq_sell_of_ne_buy {s : Side} (h : s ≠ Side.buy) : s = Side.sell := by
  cases s
  · exact absurd rfl h
  · rfl

lemma calculate_sell_eq (v : ℚ) : calculate v Side.sell = v * (139571 / 100000000) := by
  simp only [calculate, BROKERAGE_PCT, STT_PCT, EXCHANGE_TXN_PCT, GST_PCT, SEBI_FEES_PCT,
    reduceCtorEq, if_false, add_zero]
  ring

lemma calculate_buy_eq (v : ℚ) : calculate v Side.buy = v * (154571 / 100000000) := by
  simp only [calculate, BROKERAGE_PCT, STT_PCT, EXCHANGE_TXN_PCT, GST_PCT, SEBI_FEES_PCT,
    STAMP_DUTY_PCT, if_pos rfl]
  norm_num
  ring

lemma calculate_nonneg (v : ℚ) (s : Side) (hv : 0 ≤ v) : 0 ≤ calculate v s := by
  cases s
  · rw [calculate_buy_eq]; positivity
  · rw [calculate_sell_eq]; positivity

lemma calculate_sell_le (v : ℚ) (hv : 0 ≤ v) : calculate v Side.sell ≤ v := by
  rw [calculate_sell_eq]
  nlinarith


/-
Single-order and whole-queue preservation of the long-only invariant in
the backtest settlement path.
-/

lemma executeOrder_stratOK (slippage price : ℚ) (st : Portfolio × List Fill) (o : Order)
    (hs0 : 0 ≤ slippage) (hs1 : slippage ≤ 1) (hp : 0 < price) (hq : 0 < o.qty)
    (hOK : portfolioOK st.1) : portfolioOK (executeOrder slippage price st o).1 := by
  intro i
  by_cases hb : o.side = Side.buy
  · simp only [executeOrder, execution_price, hb, reduceIte]
    split_ifs with hc
    · simp only [updatePortfolio]
      by_cases hi : i = o.id
      · simp only [hi, reduceIte]
        exact ⟨sub_nonneg.mpr hc, add_nonneg (hOK o.id).2 hq.le⟩
      · simp only [if_neg hi]
        exact hOK i
    · exact hOK i
  · have hsell := side_eq_sell_of_ne_buy hb
    simp only [executeOrder, execution_price, hsell, reduceCtorEq, reduceIte]
    split_ifs with hc
    · simp only [updatePortfolio]
      by_cases hi : i = o.id
      · simp only [hi, reduceIte]
        have hqq : (0 : ℚ) ≤ (o.qty : ℚ) := by exact_mod_cast hq.le
        have htv : 0 ≤ (o.qty : ℚ) * (price * (1 - slippage)) :=
          mul_nonneg hqq (mul_nonneg hp.le (by linarith))
        have hcost := calculate_sell_le ((o.qty : ℚ) * (price * (1 - slippage))) htv
        have h1 := (hOK o.id).1
        refine ⟨?_, sub_nonneg.mpr hc⟩
        show 0 ≤ (st.1 o.id).cash + ((o.qty : ℚ) * (price * (1 - slippage)) -
          calculate ((o.qty : ℚ) * (price * (1 - slippage))) Side.sell)
        nlinarith
      · simp only [if_neg hi]
        exact hOK i
    · exact hOK i

lemma execute_orders_portfolioOK (slippage price : ℚ) (queue : List Order)
    (st : Portfolio × List Fill)
    (hs0 : 0 ≤ slippage) (hs1 : slippage ≤ 1) (hp : 0 < price)
    (hq : ∀ o ∈ queue, 0 < o.qty) (hOK : portfolioOK st.1) :
    portfolioOK (queue.foldl (executeOrder slippage price) st).1 := by
  induction queue generalizing st with
  | nil => exact hOK
  | cons o rest ih =>
      exact ih (executeOrder slippage price st o)
        (fun x hx => hq x (List.mem_cons_of_mem o hx))
        (executeOrder_stratOK slippage price st o hs0 hs1 hp
          (hq o (List.mem_cons_self o rest)) hOK)

/-
Preservation of the long-only invariant in the live settlement path.
-/

lemma submit_order_cioOK (params : RiskParams) (cio : CIOState) (sid sym : Nat)
    (side : Side) (qty : ℤ) (price : ℚ) (hOK : cioOK cio) :
    cioOK (submit_order params cio sid sym side qty price) := by
  by_cases h1 : price ≤ 0
  · simp only [submit_order, if_pos h1]; exact hOK
  by_cases h2 : qty ≤ 0
  · simp only [submit_order, if_neg h1, if_pos h2]; exact hOK
  by_cases h3 : (qty : ℚ) * price > params.MAX_ORDER_VALUE
  · simp only [submit_order, is_trade_allowed_desk, if_neg h1, if_neg h2, if_pos h3,
      reduceIte]
    exact hOK
  simp only [submit_order, is_trade_allowed_desk, if_neg h1, if_neg h2, if_neg h3,
    reduceIte]
  by_cases h4 : (side = Side.buy ∧ (cio.strategies sid).cash ≥ (qty : ℚ) * price) ∨
      (side = Side.sell ∧ (cio.strategies sid).positions sym ≥ qty)
  · rw [if_pos h4]
    intro i
    by_cases hi : i = sid
    · simp only [hi, reduceIte]
      have hq0 : (0 : ℤ) < qty := lt_of_not_le h2
      have hp0 : (0 : ℚ) < price := lt_of_not_le h1
      rcases h4 with ⟨hbuy, hcash⟩ | ⟨hsell, hshares⟩
      · simp only [hbuy, reduceIte]
        refine ⟨sub_nonneg.mpr hcash, ?_⟩
        intro k
        by_cases hk : k = sym
        · simp only [hk, reduceIte]
          exact add_nonneg ((hOK sid).2 sym) hq0.le
        · simp only [if_neg hk]
          exact (hOK sid).2 k
      · simp only [hsell, reduceCtorEq, reduceIte]
        constructor
        · have htv : (0 : ℚ) ≤ (qty : ℚ) * price :=
            mul_nonneg (by exact_mod_cast hq0.le) hp0.le
          have := (hOK sid).1
          show 0 ≤ (cio.strategies sid).cash - -((qty : ℚ) * price)
          linarith [neg_neg ((qty : ℚ) * price)]
        · intro k
          by_cases hk : k = sym
          · simp only [hk, reduceIte]
            show 0 ≤ (cio.strategies sid).positions sym + -qty
            have := sub_nonneg.mpr hshares
            linarith [sub_eq_add_neg ((cio.strategies sid).positions sym) qty]
          · simp only [if_neg hk]
            exact (hOK sid).2 k
    · simp only [if_neg hi]
      exact hOK i
  · rw [if_neg h4]
    exact hOK

lemma submit_orders_cioOK (params : RiskParams) (cio : CIOState) (orders : List LiveOrder)
    (hOK : cioOK cio) : cioOK (submit_orders params cio orders) := by
  induction orders generalizing cio with
  | nil => exact hOK
  | cons o rest ih =>
      exact ih (submit_order params cio o.strategy_id o.symbol o.side o.qty o.price)
        (submit_order_cioOK params cio o.strategy_id o.symbol o.side o.qty o.price hOK)

/-- C1: for every strategy and every sequence of submitted orders with
positive prices, the strategy's cash and every position/share count stay
non-negative after every executed order, in both the backtest settlement
path (MarketSimulator.execute_orders, for any slippage fraction between
0 and 1 — the configured value is 10 bps — and any queue of
positive-quantity orders, which is all submit_order enqueues) and the
live settlement path (ChiefInvestmentOfficer.submit_order, whose price
and quantity guards are internal, so no side condition is needed there).
Every prefix of an order sequence is itself an order sequence, so the
conclusion holds after each individual settlement. -/
theorem c1_long_only_invariant :
    (∀ (slippage price : ℚ) (p : Portfolio) (log : List Fill) (queue : List Order),
        0 ≤ slippage → slippage ≤ 1 → 0 < price → (∀ o ∈ queue, 0 < o.qty) →
        portfolioOK p → portfolioOK (execute_orders slippage price p log queue).1) ∧
    (∀ (params : RiskParams) (cio : CIOState) (orders : List LiveOrder),
        cioOK cio → cioOK (submit_orders params cio orders)) := by
  constructor
  · intro slippage price p log queue hs0 hs1 hp hq hOK
    exact execute_orders_portfolioOK slippage price queue (p, log) hs0 hs1 hp hq hOK
  · intro params cio orders hOK
    exact submit_orders_cioOK params cio orders hOK

/-- Concrete backtest book used by the witnesses. -/
def wPortfolio : Portfolio := fun _ => ⟨1000, 5, 0, 0, 0⟩

/-- Concrete live book used by the witnesses. -/
def wCIO : CIOState :=
  { strategies := fun _ => ⟨1000, fun _ => 0, 0, fun _ => 0, fun _ => 0⟩,
    risk := ⟨0, false⟩, trade_count := 0 }

/-- Witness for C1 at a concrete slippage, price, book and queue. -/
theorem c1_long_only_invariant_witness :
    portfolioOK (execute_orders 0 1 wPortfolio [] [⟨0, Side.buy, 1⟩]).1 ∧
    cioOK (submit_orders ⟨0, 0⟩ wCIO [⟨0, 0, Side.buy, 1, 1⟩]) :=
  ⟨c1_long_only_invariant.1 0 1 wPortfolio [] [⟨0, Side.buy, 1⟩]
      (by decide) (by decide) (by decide) (by decide)
      (fun _ => ⟨(by decide : (0 : ℚ) ≤ 1000), (by decide : (0 : ℤ) ≤ 5)⟩),
   c1_long_only_invariant.2 ⟨0, 0⟩ wCIO [⟨0, 0, Side.buy, 1, 1⟩]
      (fun _ => ⟨(by decide : (0 : ℚ) ≤ 1000), fun _ => (by decide : (0 : ℤ) ≤ 0)⟩)⟩

/-- C2: in backtest settlement a buy settles only if cash covers
notional plus transaction cost and a sell only if the share count covers
the quantity; an order failing its check is dropped atomically — the
trade log, the cash and the shares of every strategy are left exactly as
they were (never partially filled, never fatal). -/
theorem c2_atomic_settlement :
    ∀ (slippage price : ℚ) (p : Portfolio) (log : List Fill) (o : Order),
      ((o.side = Side.buy ∧
          (p o.id).cash < (o.qty : ℚ) * execution_price slippage price o.side +
            calculate ((o.qty : ℚ) * execution_price slippage price o.side) o.side) →
        executeOrder slippage price (p, log) o = (p, log)) ∧
      ((o.side = Side.sell ∧ (p o.id).shares < o.qty) →
        executeOrder slippage price (p, log) o = (p, log)) ∧
      ((executeOrder slippage price (p, log) o).2 ≠ log →
        (o.side = Side.buy ∧
            (p o.id).cash ≥ (o.qty : ℚ) * execution_price slippage price o.side +
              calculate ((o.qty : ℚ) * execution_price slippage price o.side) o.side) ∨
          (o.side = Side.sell ∧ (p o.id).shares ≥ o.qty)) := by
  intro slippage price p log o
  refine ⟨?_, ?_, ?_⟩
  · rintro ⟨hb, hlt⟩
    rw [hb] at hlt
    simp only [executeOrder, hb, reduceIte]
    rw [if_neg (not_le.mpr hlt)]
  · rintro ⟨hs, hlt⟩
    simp only [executeOrder, hs, reduceCtorEq, reduceIte]
    rw [if_neg (not_le.mpr hlt)]
  · intro hne
    by_cases hb : o.side = Side.buy
    · by_cases hc : (p o.id).cash ≥ (o.qty : ℚ) * execution_price slippage price o.side +
          calculate ((o.qty : ℚ) * execution_price slippage price o.side) o.side
      · exact Or.inl ⟨hb, hc⟩
      · exfalso
        apply hne
        rw [hb] at hc
        simp only [executeOrder, hb, reduceIte]
        rw [if_neg hc]
    · have hs := side_eq_sell_of_ne_buy hb
      by_cases hc : (p o.id).shares ≥ o.qty
      · exact Or.inr ⟨hs, hc⟩
      · exfalso
        apply hne
        simp only [executeOrder, hs, reduceCtorEq, reduceIte]
        rw [if_neg hc]

/-- Concrete cashless book used by the C2 witness. -/
def wPortfolio2 : Portfolio := fun _ => ⟨0, 0, 0, 0, 0⟩

/-- Witness for C2: a buy of one share at price 1 against a strategy
with zero cash is dropped with the book and the log unchanged. -/
theorem c2_atomic_settlement_witness :
    executeOrder 0 1 (wPortfolio2, []) ⟨0, Side.buy, 1⟩ = (wPortfolio2, []) :=
  (c2_atomic_settlement 0 1 wPortfolio2 [] ⟨0, Side.buy, 1⟩).1
    ⟨rfl, by norm_num [wPortfolio2, execution_price, calculate_buy_eq]⟩

/-- The FIFO example trade log of C3: two buys then one sell, all for
the same strategy. -/
def ex3 : List Fill :=
  [⟨0, Side.buy, 10, 100, 0⟩, ⟨0, Side.buy, 5, 110, 0⟩, ⟨0, Side.sell, 12, 120, 0⟩]

/-- C3: TradeAnalyzer.calculate_round_trip_pnl matches sells FIFO
against the oldest open buys of the same strategy; on the log
[buy 10 @ 100, buy 5 @ 110, sell 12 @ 120] the realized round-trip pnl
of the sell is 10(120-100) + 2(120-110) = 220, and the single remaining
open buy for the strategy is the second fill with quantity reduced to 3
at price 110 (the first buy was consumed whole and discarded once its
remaining quantity reached the epsilon threshold). -/
theorem c3_fifo_round_trip :
    calculate_round_trip_pnl ex3 = [220] ∧
    (runAnalyzer ex3).openBuys 0 = [1] ∧
    (runAnalyzer ex3).trades.getD 1 default =
      { id := 0, side := Side.buy, qty := 3, price := 110, cost := 0 } := by
  refine ⟨?_, ?_, ?_⟩ <;>
    norm_num [calculate_round_trip_pnl, runAnalyzer, rtStep, matchSell, matchEps, ex3,
      List.range_succ, List.foldl_append, List.getD, reduceCtorEq, reduceIte] <;>
    decide

/-- The C7 failing input: one recorded buy of 10, then a sell of 4 for
the same strategy. -/
def ex7 : List Fill := [⟨0, Side.buy, 10, 100, 0⟩, ⟨0, Side.sell, 4, 120, 0⟩]

/-- C7 (refuting computation): the recorded buy fill enters the trade
log with quantity 10, yet after TradeAnalyzer.calculate_round_trip_pnl
runs over the log the same entry carries quantity 6 — the analyzer
decrements the quantity of matched buy fills through the references held
in its open_buys queues, mutating the supposedly immutable trade log. -/
theorem c7_fill_mutated_by_analyzer :
    (ex7.getD 0 default).qty = 10 ∧
    ((runAnalyzer ex7).trades.getD 0 default).qty = 6 ∧
    calculate_round_trip_pnl ex7 = [80] := by
  refine ⟨?_, ?_, ?_⟩ <;>
    norm_num [calculate_round_trip_pnl, runAnalyzer, rtStep, matchSell, matchEps, ex7,
      List.range_succ, List.foldl_append, List.getD, reduceCtorEq, reduceIte] <;>
    decide

/-
The Quant T py RiskManager session invariant: the alert counter always
equals 1 exactly when the breach flag is set, so one breach alert is
sent on the transition and none afterwards until the next reset.
-/

lemma rm_alerts_eq (params : RiskParams) (es : List RMEvent) :
    ∀ (rm : RMState) (n : Nat), n = (if rm.is_drawdown_breached then 1 else 0) →
      (es.foldl (rmStep params) (rm, n)).2 =
        if (es.foldl (rmStep params) (rm, n)).1.is_drawdown_breached then 1 else 0 := by
  induction es with
  | nil => intro rm n h; simpa using h
  | cons e t ih =>
      intro rm n h
      rw [List.foldl_cons]
      apply ih
      cases e with
      | observe cv => simpa [rmStep] using h
      | trade side qty price cv =>
          simp only [rmStep, is_trade_allowed]
          by_cases hB : (if rm.peak_equity > 0 then
              (rm.peak_equity - cv) / rm.peak_equity else 0) > params.DAILY_DRAWDOWN_LIMIT ∧
              rm.is_drawdown_breached = false
          · simp only [if_pos hB]
            have hn : n = 0 := by simp [h, hB.2]
            split_ifs <;> simp_all
          · simp only [if_neg hB]
            split_ifs <;> simp_all

/-- C4 counterexample: the claim fails on the code as stated.  First,
the RiskManager actually wired into ChiefInvestmentOfficer.submit_order
in src/quantitative_desk performs no drawdown transition at all: with
peak equity 1,000,000, current equity 900,000 and a 5% daily drawdown
limit the drawdown 10% exceeds the limit, yet a buy is still allowed,
the risk state is returned unchanged (the flag never becomes true) and
no breach alert fires.  Second, even in the Quant T py RiskManager that
does implement the state machine, a sell is not allowed while breached
when its notional exceeds MAX_ORDER_VALUE. -/
theorem c4_counterexample :
    ((1000000 : ℚ) - 900000) / 1000000 > 5 / 100 ∧
    is_trade_allowed_desk ⟨200000, 5 / 100⟩ (assess_new_day 1000000) Side.buy 100 100 900000 =
      (true, assess_new_day 1000000, 0) ∧
    (is_trade_allowed ⟨200000, 5 / 100⟩ ⟨1000000, true⟩ Side.sell 3000 100 1000000).1 =
      false := by
  refine ⟨by norm_num, ?_, ?_⟩
  · simp only [is_trade_allowed_desk]
    norm_num
  · simp only [is_trade_allowed]
    norm_num

/-- C4 (amended): in the Quant T py RiskManager, within one session
(assess_new_day followed by any sequence of peak-equity observations and
is_trade_allowed calls) the alert count always equals 1 exactly when the
breach flag is set — so exactly one alert fires, on the transition, and
none for later rejections or deeper drawdown until the next reset;
from the unbreached state a call sets the flag exactly when the
drawdown (peak - current)/peak exceeds the limit, and the alert fires
with it; while breached every buy is rejected with no further alert;
and a sell is allowed while breached provided its notional does not
exceed MAX_ORDER_VALUE (the max-order-value check still applies to
sells, and the quantitative_desk RiskManager has none of this drawdown
logic — see the counterexample). -/
theorem c4_drawdown_state_machine :
    (∀ (params : RiskParams) (v : ℚ) (es : List RMEvent),
        (runRM params v es).2 =
          if (runRM params v es).1.is_drawdown_breached then 1 else 0) ∧
    (∀ (params : RiskParams) (rm : RMState) (side : Side) (qty : ℤ) (price cv : ℚ),
        rm.is_drawdown_breached = false →
        (is_trade_allowed params rm side qty price cv).2.1 =
          (if (if rm.peak_equity > 0 then (rm.peak_equity - cv) / rm.peak_equity else 0) >
              params.DAILY_DRAWDOWN_LIMIT then
            { rm with is_drawdown_breached := true } else rm) ∧
        (is_trade_allowed params rm side qty price cv).2.2 =
          (if (if rm.peak_equity > 0 then (rm.peak_equity - cv) / rm.peak_equity else 0) >
              params.DAILY_DRAWDOWN_LIMIT then 1 else 0)) ∧
    (∀ (params : RiskParams) (rm : RMState) (qty : ℤ) (price cv : ℚ),
        rm.is_drawdown_breached = true →
        is_trade_allowed params rm Side.buy qty price cv = (false, rm, 0)) ∧
    (∀ (params : RiskParams) (rm : RMState) (qty : ℤ) (price cv : ℚ),
        rm.is_drawdown_breached = true → (qty : ℚ) * price ≤ params.MAX_ORDER_VALUE →
        is_trade_allowed params rm Side.sell qty price cv = (true, rm, 0)) := by
  refine ⟨?_, ?_, ?_, ?_⟩
  · intro params v es
    exact rm_alerts_eq params es (assess_new_day v) 0 (by simp [assess_new_day])
  · intro params rm side qty price cv h
    simp only [is_trade_allowed, h]
    split_ifs <;> simp_all
  · intro params rm qty price cv h
    simp [is_trade_allowed, h]
  · intro params rm qty price cv h h2
    simp [is_trade_allowed, h, not_lt.mpr h2]

/-- Concrete breached risk state used by the C4 witness. -/
def wBreached : RMState := ⟨1000000, true⟩

/-- Witness for C4 (amended): while breached, a buy is rejected with no
alert, and a small sell is allowed. -/
theorem c4_drawdown_state_machine_witness :
    is_trade_allowed ⟨200000, 5 / 100⟩ wBreached Side.buy 1 100 1000000 =
      (false, wBreached, 0) ∧
    is_trade_allowed ⟨200000, 5 / 100⟩ wBreached Side.sell 1 100 1000000 =
      (true, wBreached, 0) :=
  ⟨c4_drawdown_state_machine.2.2.1 ⟨200000, 5 / 100⟩ wBreached 1 100 1000000 rfl,
   c4_drawdown_state_machine.2.2.2 ⟨200000, 5 / 100⟩ wBreached 1 100 1000000 rfl
      (by norm_num)⟩

/-- C5: with slippage configured at 10 bps (SLIPPAGE_BPS / 10000 =
10/10000), a buy executes at reference price times 1.001 and a sell at
reference price times 0.999; TransactionCostCalculator.calculate is a
pure function of its two arguments (it is a Lean function of exactly
those arguments, hence deterministic and state-free), it is never
negative for non-negative trade value, and the stamp-duty component
(trade value times STAMP_DUTY_PCT) is included exactly when the side is
buy. -/
theorem c5_cost_model :
    (∀ price : ℚ,
        execution_price (10 / 10000) price Side.buy = price * (1001 / 1000) ∧
        execution_price (10 / 10000) price Side.sell = price * (999 / 1000)) ∧
    (∀ (v : ℚ) (s : Side), 0 ≤ v → 0 ≤ calculate v s) ∧
    (∀ v : ℚ, calculate v Side.buy = calculate v Side.sell + v * STAMP_DUTY_PCT) := by
  refine ⟨?_, ?_, ?_⟩
  · intro price
    constructor <;> simp only [execution_price, reduceCtorEq, reduceIte] <;> norm_num
  · exact fun v s hv => calculate_nonneg v s hv
  · intro v
    rw [calculate_buy_eq, calculate_sell_eq]
    simp only [STAMP_DUTY_PCT]
    ring

/-- Witness for C5: the fee on a unit notional buy is non-negative. -/
theorem c5_cost_model_witness : 0 ≤ calculate 1 Side.buy :=
  c5_cost_model.2.1 1 Side.buy (by decide)

/-- C6: PerformanceAnalyzer.calculate_metrics returns a Sharpe ratio of
exactly 0 whenever the return series has fewer than 2 observations or
its annualized volatility is zero, and otherwise returns
(annualized return - risk-free rate) / annualized volatility. -/
theorem c6_sharpe_guards :
    ∀ (returns : List ℝ) (risk_free_rate : ℝ),
      (returns.length < 2 → calculate_metrics_sharpe returns risk_free_rate = 0) ∧
      (annualized_volatility returns = 0 →
        calculate_metrics_sharpe returns risk_free_rate = 0) ∧
      (2 ≤ returns.length → 0 < annualized_volatility returns →
        calculate_metrics_sharpe returns risk_free_rate =
          (annualized_return returns - risk_free_rate) / annualized_volatility returns) := by
  intro returns rf
  refine ⟨?_, ?_, ?_⟩
  · intro h
    simp [calculate_metrics_sharpe, h]
  · intro h
    simp only [calculate_metrics_sharpe]
    split_ifs with h1 h2
    · rfl
    · exact absurd (h ▸ h2) (lt_irrefl 0)
    · rfl
  · intro hlen hvol
    have h1 : ¬(returns.isEmpty = true ∨ returns.length < 2) := by
      rintro (hE | hL)
      · rw [List.isEmpty_iff] at hE
        rw [hE] at hlen
        simp at hlen
      · omega
    simp only [calculate_metrics_sharpe]
    rw [if_neg h1, if_pos hvol]

/-- Witness for C6: the empty return series has Sharpe ratio 0. -/
theorem c6_sharpe_guards_witness : calculate_metrics_sharpe [] 0 = 0 :=
  (c6_sharpe_guards [] 0).1 (by decide)

/-- C8: every strategy decision returns HOLD with quantity 0 (and an
unchanged strategy state, so no error path) whenever the available
price history is shorter than the configured long window (trend) or
rolling window (mean reversion), in both the backtest and the live
implementations; and a backtest trend entry whose average-true-range
volatility measure is zero (or non-positive, which is how the code
tests it) yields HOLD rather than a buy. -/
theorem c8_warmup_hold :
    (∀ (cfg : TrendConfig) (s : AtlasStrategyState) (history : List Bar) (price : ℚ),
        history.length < cfg.LONG_WINDOW →
        atlasTrendDecide cfg s history price = ((Signal.HOLD, 0), s)) ∧
    (∀ (cfg : MeanRevConfig) (s : AtlasStrategyState) (history : List Bar) (price : ℚ),
        history.length < cfg.WINDOW →
        atlasMeanRevDecide cfg s history price = ((Signal.HOLD, 0), s)) ∧
    (∀ (taRsi : List ℚ → Nat → Option (List ℚ)) (cfg : TrendConfig)
        (s : LiveStrategyState) (symbol : Nat) (h : List ℚ) (price : ℚ),
        h.length < cfg.LONG_WINDOW →
        liveTrendDecide taRsi cfg s symbol (some h) price = (Signal.HOLD, s)) ∧
    (∀ (taRsi : List ℚ → Nat → Option (List ℚ)) (cfg : MeanRevConfig)
        (s : LiveStrategyState) (symbol : Nat) (h : List ℚ) (price : ℚ),
        h.length < cfg.WINDOW →
        liveMeanRevDecide taRsi cfg s symbol (some h) price = (Signal.HOLD, s)) ∧
    (∀ (cfg : TrendConfig) (s : AtlasStrategyState) (history : List Bar) (price : ℚ),
        s.shares = 0 → calculate_atr 14 history ≤ 0 →
        atlasTrendDecide cfg s history price = ((Signal.HOLD, 0), s)) := by
  refine ⟨?_, ?_, ?_, ?_, ?_⟩
  · intro cfg s history price h
    simp [atlasTrendDecide, if_pos h]
  · intro cfg s history price h
    simp [atlasMeanRevDecide, if_pos h]
  · intro taRsi cfg s symbol h price hlen
    simp only [liveTrendDecide]
    rw [if_pos (Or.inr hlen)]
  · intro taRsi cfg s symbol h price hlen
    simp only [liveMeanRevDecide]
    rw [if_pos (Or.inr hlen)]
  · intro cfg s history price hsh hatr
    simp only [atlasTrendDecide]
    split_ifs <;>
      first
        | rfl
        | exact absurd ‹calculate_atr 14 history > 0› (not_lt.mpr hatr)

/-- Concrete trend parameters (the StrategyConfig defaults) used by the
witnesses. -/
def wTrendCfg : TrendConfig := ⟨20, 50, 14, 55, 5 / 100, 2 / 100⟩

/-- Concrete mean-reversion parameters (the StrategyConfig defaults)
used by the witnesses. -/
def wMRCfg : MeanRevConfig := ⟨20, 2, 14, 40, 3 / 100, 15 / 1000⟩

/-- A flat strategy state used by the witnesses. -/
def wStrat : AtlasStrategyState := ⟨0, 0, 0, 0, 0⟩

/-- A flat live strategy state used by the witnesses. -/
def wLiveStrat : LiveStrategyState := ⟨0, fun _ => 0, 0, fun _ => 0, fun _ => 0⟩

/-- Witness for C8: all four strategies hold on an empty history, and
the backtest trend strategy holds when the ATR is zero. -/
theorem c8_warmup_hold_witness :
    atlasTrendDecide wTrendCfg wStrat [] 0 = ((Signal.HOLD, 0), wStrat) ∧
    atlasMeanRevDecide wMRCfg wStrat [] 0 = ((Signal.HOLD, 0), wStrat) ∧
    liveTrendDecide (fun _ _ => none) wTrendCfg wLiveStrat 0 (some []) 0 =
      (Signal.HOLD, wLiveStrat) ∧
    liveMeanRevDecide (fun _ _ => none) wMRCfg wLiveStrat 0 (some []) 0 =
      (Signal.HOLD, wLiveStrat) ∧
    atlasTrendDecide wTrendCfg wStrat [] 1 = ((Signal.HOLD, 0), wStrat) :=
  ⟨c8_warmup_hold.1 wTrendCfg wStrat [] 0 (by decide),
   c8_warmup_hold.2.1 wMRCfg wStrat [] 0 (by decide),
   c8_warmup_hold.2.2.1 (fun _ _ => none) wTrendCfg wLiveStrat 0 [] 0 (by decide),
   c8_warmup_hold.2.2.2.1 (fun _ _ => none) wMRCfg wLiveStrat 0 [] 0 (by decide),
   c8_warmup_hold.2.2.2.2 wTrendCfg wStrat [] 1 rfl (by decide)⟩

/-
Capital allocation (C9).
-/

lemma rebalance_capital_eq (capital : ℚ) (strats : List AtlasStrategyState) :
    rebalance_capital capital strats =
      if strats = [] then strats
      else strats.map (fun s => set_capital s (capital / (strats.length : ℚ))) := by
  simp [rebalance_capital, List.isEmpty_iff]

/-- C9: the capital allocator run at construction
(PortfolioManager._rebalance_capital) gives every active strategy cash
equal to totalCapital / strategyCount with zero shares, and triggering
the rebalance a second time is idempotent: the portfolio state after two
consecutive rebalances equals the state after one. -/
theorem c9_equal_split_idempotent :
    (∀ (capital : ℚ) (strats : List AtlasStrategyState) (i : Nat),
        strats ≠ [] → i < strats.length →
        ((rebalance_capital capital strats).getD i default).cash =
            capital / (strats.length : ℚ) ∧
        ((rebalance_capital capital strats).getD i default).shares = 0) ∧
    (∀ (capital : ℚ) (strats : List AtlasStrategyState),
        rebalance_capital capital (rebalance_capital capital strats) =
          rebalance_capital capital strats) := by
  constructor
  · intro capital strats i hne hi
    rw [rebalance_capital_eq, if_neg hne]
    constructor <;>
      rw [List.getD_eq_getElem?_getD, List.getElem?_map,
        List.getElem?_eq_getElem hi] <;>
      simp [set_capital]
  · intro capital strats
    by_cases h0 : strats = []
    · subst h0
      rfl
    · rw [rebalance_capital_eq capital strats, if_neg h0, rebalance_capital_eq]
      have hmne : strats.map (fun s => set_capital s (capital / (strats.length : ℚ))) ≠ [] := by
        simp [h0]
      rw [if_neg hmne, List.map_map, List.length_map]
      congr 1

/-- Concrete one-strategy book used by the C9 witness. -/
def wStrats : List AtlasStrategyState := [⟨7, 3, 0, 0, 0⟩]

/-- Witness for C9: rebalancing a single-strategy book gives it the
whole pool and clears its shares. -/
theorem c9_equal_split_idempotent_witness :
    ((rebalance_capital 1000000 wStrats).getD 0 default).cash =
        1000000 / ((wStrats.length : ℚ)) ∧
    ((rebalance_capital 1000000 wStrats).getD 0 default).shares = 0 :=
  c9_equal_split_idempotent.1 1000000 wStrats 0 (by decide) (by decide)

/-
TradeAnalyzer pnl-list facts (C10).
-/

lemma rtStep_pnl_no_zero (st : RTState) (i : Nat) (h : (0 : ℚ) ∉ st.pnl) :
    (0 : ℚ) ∉ (rtStep st i).pnl := by
  simp only [rtStep]
  split_ifs with h1 h2 h3
  · simpa using h
  · exact h
  · intro hmem
    rcases List.mem_append.mp hmem with hm | hm
    · exact h hm
    · exact h3 ((List.mem_singleton.mp hm).symm)
  · simpa using h

lemma foldl_rtStep_pnl_no_zero (l : List Nat) :
    ∀ st : RTState, (0 : ℚ) ∉ st.pnl → (0 : ℚ) ∉ (l.foldl rtStep st).pnl := by
  induction l with
  | nil => exact fun st h => h
  | cons i t ih => exact fun st h => ih (rtStep st i) (rtStep_pnl_no_zero st i h)

/-- C10: calculate_round_trip_pnl appends an entry only when the
matched round-trip pnl is non-zero — a break-even round trip (here a
buy of 10 at 100 followed by a sell of 10 at 100) produces no entry and
in general 0 never occurs in the returned list — and a sell whose
strategy has no open buy fills at that point is skipped entirely,
leaving the whole analyzer state (trades, pnl and open-buy queues)
untouched. -/
theorem c10_nonzero_pnl_and_skip :
    calculate_round_trip_pnl [⟨0, Side.buy, 10, 100, 0⟩, ⟨0, Side.sell, 10, 100, 0⟩] = [] ∧
    (∀ raw_trades : List Fill, (0 : ℚ) ∉ calculate_round_trip_pnl raw_trades) ∧
    (∀ (st : RTState) (i : Nat),
        (st.trades.getD i default).side = Side.sell →
        st.openBuys ((st.trades.getD i default).id) = [] →
        rtStep st i = st) := by
  refine ⟨?_, ?_, ?_⟩
  · norm_num [calculate_round_trip_pnl, runAnalyzer, rtStep, matchSell, matchEps,
      List.range_succ, List.foldl_append, List.getD, reduceCtorEq, reduceIte] <;>
    decide
  · intro raw_trades
    exact foldl_rtStep_pnl_no_zero (List.range raw_trades.length)
      ⟨raw_trades, [], fun _ => []⟩ (List.not_mem_nil 0)
  · intro st i h1 h2
    simp only [rtStep, h1, reduceCtorEq, reduceIte, h2]

/-- Concrete analyzer state used by the C10 witness: one sell and no
open buys. -/
def wRT : RTState := ⟨[⟨0, Side.sell, 5, 100, 0⟩], [], fun _ => []⟩

/-- Witness for C10: the orphan sell leaves the analyzer state
unchanged. -/
theorem c10_nonzero_pnl_and_skip_witness : rtStep wRT 0 = wRT :=
  c10_nonzero_pnl_and_skip.2.2 wRT 0 rfl rfl
